import Mathlib

/-!
Shallow embedding of the Cardiac Health Monitor UI component (src/src/App.tsx).

The source is a single React component.  Its data model and handlers are
embedded as follows:
- the form state, a JavaScript object mapping field names to raw input
  strings, becomes an association list of string pairs in insertion order;
- the handler handleChange, which performs the object-spread update
  (spread of prev, then the computed key set to value), becomes setField,
  a replace-first-or-append update on the association list;
- the async handler handleSubmit is split at its single suspension point
  (the awaited POST) into submitStart, the synchronous prefix that sets
  loading, clears error and issues the request carrying the form data
  verbatim, and submitFinish, the continuation run when the request
  resolves with either a parsed response or a thrown error;
- probabilities, a JavaScript object mapping labels to numbers, becomes an
  association list of label and rational pairs; the component never does
  arithmetic on these numbers, it only extracts keys and values in
  iteration order, so rationals are a faithful carrier;
- view-state transitions are collected in a step relation Step and the
  reachable states in Reachable, with an explicit Phase marking whether a
  request is in flight and recording the request body that was sent.
-/

/-- Result value received from the prediction service, from the
PredictionResult interface in App.tsx: a diagnosis label, a mapping from
label to probability in iteration order, and an informational message. -/
structure PredictionResult where
  prediction : String
  probabilities : List (String × ℚ)
  message : String
deriving DecidableEq

/-- Initial form state from the useState initializer in App.tsx: eight
named fields, all the empty string, in declaration order. -/
def initialFormData : List (String × String) :=
  [("age", ""), ("weight", ""), ("height", ""), ("hr", ""),
   ("spo2", ""), ("temp", ""), ("qt_interval", ""), ("st_segment", "")]

/-- Phase of the submission lifecycle: idle, or a request in flight
carrying the body that was POSTed. -/
inductive Phase where
  | idle : Phase
  | inFlight : List (String × String) → Phase
deriving DecidableEq

/-- View state of the component: the four useState cells of App.tsx
(formData, prediction, loading, error) plus the lifecycle phase. -/
structure AppState where
  formData : List (String × String)
  prediction : Option PredictionResult
  loading : Bool
  error : Option String
  phase : Phase
deriving DecidableEq

/-- State at mount: empty form, no prediction, not loading, no error. -/
def initState : AppState :=
  { formData := initialFormData, prediction := none, loading := false,
    error := none, phase := Phase.idle }

/-- JavaScript property read on the form-state object: first binding of
the key in the association list. -/
def lookupField : List (String × String) → String → Option String
  | [], _ => none
  | p :: rest, k => if p.1 = k then some p.2 else lookupField rest k

/-- Object-spread update from handleChange in App.tsx: spread of prev
followed by the computed key name set to value.  On an object this
replaces the binding of name in place when present and appends a new
binding otherwise. -/
def setField : List (String × String) → String → String → List (String × String)
  | [], name, value => [(name, value)]
  | p :: rest, name, value =>
      if p.1 = name then (name, value) :: rest
      else p :: setField rest name value

/-- The handler handleChange: updates exactly the named field of the form
state. -/
def handleChange (s : AppState) (name value : String) : AppState :=
  { s with formData := setField s.formData name value }

/-- The fixed user-facing failure message set by the catch block of
handleSubmit. -/
def errorMessage : String :=
  "An error occurred during prediction. Please try again."

/-- Synchronous prefix of handleSubmit, before the awaited POST: sets
loading to true, clears error, and issues the request whose body is the
entire current form record, sent verbatim. -/
def submitStart (s : AppState) : AppState :=
  { s with loading := true, error := none, phase := Phase.inFlight s.formData }

/-- Resolution of the awaited POST: either a parsed response body or a
thrown error (network failure, non-2xx status, malformed body are all
collapsed into the single catch path of handleSubmit). -/
inductive Outcome where
  | success : PredictionResult → Outcome
  | failure : Outcome
deriving DecidableEq

/-- Continuation of handleSubmit after the awaited POST resolves: on
success the response is stored as the prediction; on failure error is set
to the fixed message; the finally block sets loading to false in both
cases. -/
def submitFinish (s : AppState) (o : Outcome) : AppState :=
  match o with
  | Outcome.success r =>
      { s with prediction := some r, loading := false, phase := Phase.idle }
  | Outcome.failure =>
      { s with error := some errorMessage, loading := false, phase := Phase.idle }

/-- The handler resetForm: restores the all-empty form record and clears
prediction and error; loading and any in-flight request are untouched. -/
def resetForm (s : AppState) : AppState :=
  { s with formData := initialFormData, prediction := none, error := none }

/-- One UI event of the component: a field edit, the start of a submit
(only while idle, since the submit button is disabled while loading), the
resolution of the in-flight request, or a reset. -/
inductive Step : AppState → AppState → Prop where
  | editStep (s : AppState) (name value : String) :
      Step s (handleChange s name value)
  | beginSubmit (s : AppState) (h : s.phase = Phase.idle) :
      Step s (submitStart s)
  | resolveSubmit (s : AppState) (o : Outcome) (b : List (String × String))
      (h : s.phase = Phase.inFlight b) :
      Step s (submitFinish s o)
  | resetStep (s : AppState) :
      Step s (resetForm s)

/-- States reachable from mount by UI events. -/
inductive Reachable : AppState → Prop where
  | init : Reachable initState
  | step (s t : AppState) (hs : Reachable s) (st : Step s t) : Reachable t

/-- One dataset of the doughnut chart, from the object literal built by
getChartData in App.tsx. -/
structure ChartDataset where
  data : List ℚ
  backgroundColor : List String
  borderColor : List String
  borderWidth : Nat
deriving DecidableEq

/-- The chart configuration returned by getChartData. -/
structure ChartData where
  labels : List String
  datasets : List ChartDataset
deriving DecidableEq

/-- The fixed palette of getChartData: exactly four colors, each with
alpha component 0.7, hence semi-transparent. -/
def backgroundColors : List String :=
  ["rgba(54, 162, 235, 0.7)",
   "rgba(255, 206, 86, 0.7)",
   "rgba(41, 151, 92, 0.7)",
   "rgba(250, 64, 64, 0.7)"]

/-- The derivation getChartData of App.tsx: null when no prediction is
present; otherwise labels are the keys of probabilities in iteration
order, data the values in the same order, and the color arrays the fixed
palette (border colors with alpha raised to 1). -/
def getChartData (prediction : Option PredictionResult) : Option ChartData :=
  match prediction with
  | none => none
  | some p =>
      some
        { labels := p.probabilities.map Prod.fst,
          datasets :=
            [{ data := p.probabilities.map Prod.snd,
               backgroundColor := backgroundColors,
               borderColor := backgroundColors.map
                 (fun c => c.replace "0.7" "1"),
               borderWidth := 1 }] }

/-- Modelled from the spec: the color actually painted on slice i by the
external chart renderer, which is not part of this repository.  The spec
states the palette is assigned positionally to slices in order and, when
more than four categories are present, colors repeat from the start of
the palette; so slice i receives the palette entry at index i modulo the
palette length. -/
def sliceColor (ds : ChartDataset) (i : Nat) : Option String :=
  ds.backgroundColor.get? (i % ds.backgroundColor.length)

/-- The derivation getDiagnosisColor of App.tsx: badge color classes for
the diagnosis label; the default branch is the yellow category. -/
def getDiagnosisColor (diagnosis : String) : String :=
  if diagnosis = "Good" then "bg-green-100 text-green-700"
  else if diagnosis = "Heart Failure" then "bg-red-100 text-red-700"
  else if diagnosis = "Arrhythmia" then "bg-blue-100 text-blue-700"
  else "bg-yellow-100 text-yellow-700"

/-- A clinical recommendation: the literal message and the display color
classes of its panel. -/
structure Recommendation where
  message : String
  color : String
deriving DecidableEq

/-- The derivation getRecommendationMessage of App.tsx: recommendation
text and panel color for each recognized label; the default branch pairs
the fallback message with the yellow category. -/
def getRecommendationMessage (diagnosis : String) : Recommendation :=
  if diagnosis = "Good" then
    { message := "No issues found. Maintain a healthy lifestyle.",
      color := "bg-green-100 text-green-700" }
  else if diagnosis = "Heart Failure" then
    { message := "Urgent care needed. See a cardiologist now.",
      color := "bg-red-100 text-red-700" }
  else if diagnosis = "Coronary Artery Disease" then
    { message := "Consult a cardiologist. Follow a heart-healthy plan.",
      color := "bg-orange-100 text-orange-700" }
  else if diagnosis = "Arrhythmia" then
    { message := "See a cardiologist. Avoid caffeine and monitor symptoms.",
      color := "bg-blue-100 text-blue-700" }
  else
    { message := "Further evaluation needed. Consult a doctor.",
      color := "bg-yellow-100 text-yellow-700" }

/-- Concrete service response used in the reachability scenarios below:
the Good label with probability one. -/
def sampleResult : PredictionResult :=
  { prediction := "Good", probabilities := [("Good", 1)], message := "ok" }

/-- Concrete scenario: a submit that resolves successfully, followed by a
second submit that fails. -/
def failureAfterSuccess : AppState :=
  submitFinish
    (submitStart (submitFinish (submitStart initState) (Outcome.success sampleResult)))
    Outcome.failure

/-- Updating a field makes exactly that field read back the new value. -/
theorem setField_lookup_same (prev : List (String × String)) (name value : String) :
    lookupField (setField prev name value) name = some value := by
  induction prev with
  | nil => simp [setField, lookupField]
  | cons p rest ih =>
      by_cases h : p.1 = name
      · simp [setField, h, lookupField]
      · simp [setField, h, lookupField, ih]

/-- Updating a field leaves the reading of every other key unchanged. -/
theorem setField_lookup_other (prev : List (String × String)) (name value k : String)
    (hk : k ≠ name) :
    lookupField (setField prev name value) k = lookupField prev k := by
  induction prev with
  | nil => simp [setField, lookupField, Ne.symm hk]
  | cons p rest ih =>
      by_cases h : p.1 = name
      · simp [setField, h, lookupField, Ne.symm hk]
      · simp [setField, h, lookupField, ih]

/-- Updating a key that is not present appends a new binding at the end,
leaving all existing bindings untouched. -/
theorem setField_append_of_lookup_none (prev : List (String × String)) (name value : String)
    (h : lookupField prev name = none) :
    setField prev name value = prev ++ [(name, value)] := by
  induction prev with
  | nil => simp [setField]
  | cons p rest ih =>
      by_cases hp : p.1 = name
      · simp [lookupField, hp] at h
      · simp [lookupField, hp] at h
        simp [setField, hp, ih h]

/-- Inductive invariant: in every reachable state, loading is true
exactly while a request is in flight. -/
theorem reachable_loading_iff (s : AppState) (h : Reachable s) :
    s.loading = true ↔ ∃ b, s.phase = Phase.inFlight b := by
  induction h with
  | init => simp [initState]
  | step s t hs st ih =>
      cases st with
      | editStep name value => simpa [handleChange] using ih
      | beginSubmit hidle => simp [submitStart]
      | resolveSubmit o b hfl => cases o <;> simp [submitFinish]
      | resetStep => simpa [resetForm] using ih

/-- Inductive invariant: in every reachable state with a request in
flight, error is absent (a new submission cleared it and nothing sets it
before the request resolves). -/
theorem reachable_inFlight_error (s : AppState) (h : Reachable s) :
    ∀ b : List (String × String), s.phase = Phase.inFlight b → s.error = none := by
  induction h with
  | init => intro b hb; simp [initState] at hb
  | step s t hs st ih =>
      cases st with
      | editStep name value => intro b hb; exact ih b hb
      | beginSubmit hidle => intro b hb; rfl
      | resolveSubmit o b hfl =>
          intro b2 hb; cases o <;> simp [submitFinish] at hb
      | resetStep => intro b hb; rfl

/-- Claim C1: a failed submission sets error to exactly the fixed
user-facing message, sets loading back to false, and leaves the
previously stored prediction unchanged. -/
theorem submit_failure_sets_error_keeps_prediction (s : AppState) :
    (submitFinish (submitStart s) Outcome.failure).error = some errorMessage ∧
    errorMessage = "An error occurred during prediction. Please try again." ∧
    (submitFinish (submitStart s) Outcome.failure).loading = false ∧
    (submitFinish (submitStart s) Outcome.failure).prediction = s.prediction :=
  ⟨rfl, rfl, rfl, rfl⟩

/-- Claim C2 counterexample: after a successful request followed by a
failed one, the reachable post-completion state holds both a prediction
and an error, so they are not mutually exclusive; moreover starting a new
submission from that state does not clear the prediction. -/
theorem prediction_error_both_present :
    Reachable failureAfterSuccess ∧
    failureAfterSuccess.prediction = some sampleResult ∧
    failureAfterSuccess.error = some errorMessage ∧
    (submitStart failureAfterSuccess).prediction = some sampleResult := by
  have h1 : Reachable (submitStart initState) :=
    Reachable.step _ _ Reachable.init (Step.beginSubmit _ rfl)
  have h2 : Reachable (submitFinish (submitStart initState) (Outcome.success sampleResult)) :=
    Reachable.step _ _ h1 (Step.resolveSubmit _ _ initState.formData rfl)
  have h3 : Reachable (submitStart (submitFinish (submitStart initState) (Outcome.success sampleResult))) :=
    Reachable.step _ _ h2 (Step.beginSubmit _ rfl)
  have h4 : Reachable failureAfterSuccess :=
    Reachable.step _ _ h3
      (Step.resolveSubmit _ _ (submitFinish (submitStart initState) (Outcome.success sampleResult)).formData rfl)
  exact ⟨h4, rfl, rfl, rfl⟩

/-- Claim C2, amended: a new submission clears error but not prediction
before the next outcome lands; while a request is in flight in any
reachable state, error is absent; a completed success stores the result
and leaves error absent; a completed failure sets the fixed error message
while retaining the prior prediction, so after a failure that follows an
earlier success both prediction and error are present. -/
theorem submission_cycle_error_discipline :
    (∀ s : AppState, (submitStart s).error = none ∧ (submitStart s).prediction = s.prediction) ∧
    (∀ (s : AppState) (r : PredictionResult),
        (submitFinish (submitStart s) (Outcome.success r)).prediction = some r ∧
        (submitFinish (submitStart s) (Outcome.success r)).error = none) ∧
    (∀ s : AppState,
        (submitFinish (submitStart s) Outcome.failure).error = some errorMessage ∧
        (submitFinish (submitStart s) Outcome.failure).prediction = s.prediction) ∧
    (∀ (s : AppState) (b : List (String × String)),
        Reachable s → s.phase = Phase.inFlight b → s.error = none) :=
  ⟨fun _ => ⟨rfl, rfl⟩, fun _ _ => ⟨rfl, rfl⟩, fun _ => ⟨rfl, rfl⟩,
   fun s b hs hb => reachable_inFlight_error s hs b hb⟩

/-- Witness for the amended claim C2 at a concrete reachable in-flight
state: right after the first submit from mount, error is absent. -/
theorem submission_cycle_error_discipline_witness :
    (submitStart initState).error = none :=
  submission_cycle_error_discipline.2.2.2 (submitStart initState) initialFormData
    (Reachable.step _ _ Reachable.init (Step.beginSubmit _ rfl)) rfl

/-- Claim C3: a submit sets loading to true, clears any prior error, and
issues the request carrying the entire form record verbatim, all before
the request resolves; when the request resolves, either way, loading is
set back to false; and in every reachable state loading is true exactly
while a request is in flight. -/
theorem submit_loading_interval :
    (∀ s : AppState,
        (submitStart s).loading = true ∧ (submitStart s).error = none ∧
        (submitStart s).phase = Phase.inFlight s.formData) ∧
    (∀ (s : AppState) (o : Outcome), (submitFinish s o).loading = false) ∧
    (∀ s : AppState, Reachable s → (s.loading = true ↔ ∃ b, s.phase = Phase.inFlight b)) := by
  refine ⟨fun s => ⟨rfl, rfl, rfl⟩, fun s o => ?_, fun s hs => reachable_loading_iff s hs⟩
  cases o <;> rfl

/-- Witness for claim C3 at the concrete mount state: loading is false
there and no request is in flight. -/
theorem submit_loading_interval_witness :
    initState.loading = true ↔ ∃ b, initState.phase = Phase.inFlight b :=
  submit_loading_interval.2.2 initState Reachable.init

/-- Claim C4: reset restores the all-empty eight-field form record and
clears prediction and error, from any prior state. -/
theorem resetForm_restores_initial (s : AppState) :
    (resetForm s).formData =
      [("age", ""), ("weight", ""), ("height", ""), ("hr", ""),
       ("spo2", ""), ("temp", ""), ("qt_interval", ""), ("st_segment", "")] ∧
    (resetForm s).prediction = none ∧
    (resetForm s).error = none :=
  ⟨rfl, rfl, rfl⟩

/-- Claim C5: a field edit makes exactly the named field read back the
new value while every other field reads back its prior value, for every
prior form state; hence over any sequence of edits each edit changes at
most the named field. -/
theorem handleChange_updates_exactly_one_field
    (s : AppState) (name value k : String) :
    lookupField (handleChange s name value).formData name = some value ∧
    (k ≠ name →
      lookupField (handleChange s name value).formData k = lookupField s.formData k) :=
  ⟨setField_lookup_same s.formData name value,
   fun hk => setField_lookup_other s.formData name value k hk⟩

/-- Witness for claim C5 at concrete inputs: editing age from the mount
state updates age and leaves hr unchanged. -/
theorem handleChange_updates_exactly_one_field_witness :
    lookupField (handleChange initState "age" "42").formData "age" = some "42" ∧
    lookupField (handleChange initState "age" "42").formData "hr" =
      lookupField initState.formData "hr" :=
  ⟨(handleChange_updates_exactly_one_field initState "age" "42" "hr").1,
   (handleChange_updates_exactly_one_field initState "age" "42" "hr").2 (by decide)⟩

/-- Claim C6: the recommendation mapping sends each recognized label to
its literal message and display category, in particular Heart Failure to
the urgent-care message with the critical red category, and every label
outside the recognized set to the default message with the default
yellow category. -/
theorem recommendation_message_mapping :
    getRecommendationMessage "Good" =
      { message := "No issues found. Maintain a healthy lifestyle.",
        color := "bg-green-100 text-green-700" } ∧
    getRecommendationMessage "Heart Failure" =
      { message := "Urgent care needed. See a cardiologist now.",
        color := "bg-red-100 text-red-700" } ∧
    getRecommendationMessage "Coronary Artery Disease" =
      { message := "Consult a cardiologist. Follow a heart-healthy plan.",
        color := "bg-orange-100 text-orange-700" } ∧
    getRecommendationMessage "Arrhythmia" =
      { message := "See a cardiologist. Avoid caffeine and monitor symptoms.",
        color := "bg-blue-100 text-blue-700" } ∧
    (∀ label : String, label ≠ "Good" → label ≠ "Heart Failure" →
      label ≠ "Coronary Artery Disease" → label ≠ "Arrhythmia" →
      getRecommendationMessage label =
        { message := "Further evaluation needed. Consult a doctor.",
          color := "bg-yellow-100 text-yellow-700" }) := by
  refine ⟨by decide, by decide, by decide, by decide, ?_⟩
  intro label h1 h2 h3 h4
  simp [getRecommendationMessage, h1, h2, h3, h4]

/-- Witness for claim C6 at the concrete unrecognized label Unknown. -/
theorem recommendation_message_mapping_witness :
    getRecommendationMessage "Unknown" =
      { message := "Further evaluation needed. Consult a doctor.",
        color := "bg-yellow-100 text-yellow-700" } :=
  recommendation_message_mapping.2.2.2.2 "Unknown" (by decide) (by decide) (by decide) (by decide)

/-- Claim C7: the chart data is absent exactly when no prediction result
exists; otherwise its labels are the keys of the probabilities mapping in
iteration order and its values the corresponding probabilities in the
same order, as on the concrete Heart Failure example with probabilities
0.8 and 0.2. -/
theorem getChartData_labels_values :
    (∀ p : Option PredictionResult, getChartData p = none ↔ p = none) ∧
    (∀ r : PredictionResult, ∃ c : ChartData, ∃ ds : ChartDataset,
        getChartData (some r) = some c ∧ c.datasets = [ds] ∧
        c.labels = r.probabilities.map Prod.fst ∧
        ds.data = r.probabilities.map Prod.snd) ∧
    (∃ c : ChartData, ∃ ds : ChartDataset,
        getChartData (some
          { prediction := "Heart Failure",
            probabilities := [("Heart Failure", 0.8), ("Good", 0.2)],
            message := "x" }) = some c ∧
        c.datasets = [ds] ∧
        c.labels = ["Heart Failure", "Good"] ∧
        ds.data = [0.8, 0.2]) := by
  refine ⟨fun p => ?_, fun r => ⟨_, _, rfl, rfl, rfl, rfl⟩, ⟨_, _, rfl, rfl, rfl, rfl⟩⟩
  cases p <;> simp [getChartData]

/-- Claim C8: the chart dataset carries a fixed palette of exactly four
semi-transparent colors (alpha 0.7), assigned positionally to slices in
label order by the renderer, and the color of slice i is the palette
entry at index i modulo four, so slices past the fourth repeat the
palette cyclically from its start. -/
theorem chart_palette_cycles :
    backgroundColors =
      ["rgba(54, 162, 235, 0.7)", "rgba(255, 206, 86, 0.7)",
       "rgba(41, 151, 92, 0.7)", "rgba(250, 64, 64, 0.7)"] ∧
    backgroundColors.length = 4 ∧
    (∀ r : PredictionResult, ∃ c : ChartData, ∃ ds : ChartDataset,
        getChartData (some r) = some c ∧ c.datasets = [ds] ∧
        ds.backgroundColor = backgroundColors ∧
        (∀ i : Nat, sliceColor ds i = backgroundColors.get? (i % 4)) ∧
        (∀ i : Nat, sliceColor ds (i + 4) = sliceColor ds i)) := by
  refine ⟨rfl, rfl, fun r => ⟨_, _, rfl, rfl, rfl, fun i => rfl, fun i => ?_⟩⟩
  show backgroundColors.get? ((i + 4) % backgroundColors.length)
      = backgroundColors.get? (i % backgroundColors.length)
  rw [show backgroundColors.length = 4 from rfl, Nat.add_mod_right]

/-- Claim C9: the diagnosis badge color agrees with the recommendation
panel color on Good, Heart Failure, Arrhythmia and on every unrecognized
label, but on Coronary Artery Disease they disagree: the badge falls to
the default yellow category while the recommendation uses a distinct
orange category. -/
theorem diagnosis_color_vs_recommendation_color :
    getDiagnosisColor "Good" = (getRecommendationMessage "Good").color ∧
    getDiagnosisColor "Heart Failure" = (getRecommendationMessage "Heart Failure").color ∧
    getDiagnosisColor "Arrhythmia" = (getRecommendationMessage "Arrhythmia").color ∧
    (∀ label : String, label ≠ "Good" → label ≠ "Heart Failure" →
        label ≠ "Coronary Artery Disease" → label ≠ "Arrhythmia" →
        getDiagnosisColor label = (getRecommendationMessage label).color) ∧
    getDiagnosisColor "Coronary Artery Disease" = "bg-yellow-100 text-yellow-700" ∧
    (getRecommendationMessage "Coronary Artery Disease").color = "bg-orange-100 text-orange-700" ∧
    getDiagnosisColor "Coronary Artery Disease" ≠
      (getRecommendationMessage "Coronary Artery Disease").color := by
  refine ⟨by decide, by decide, by decide, ?_, by decide, by decide, by decide⟩
  intro label h1 h2 h3 h4
  simp [getDiagnosisColor, getRecommendationMessage, h1, h2, h3, h4]

/-- Witness for claim C9 at the concrete unrecognized label Unknown. -/
theorem diagnosis_color_vs_recommendation_color_witness :
    getDiagnosisColor "Unknown" = (getRecommendationMessage "Unknown").color :=
  diagnosis_color_vs_recommendation_color.2.2.2.1 "Unknown"
    (by decide) (by decide) (by decide) (by decide)

/-- Claim C10: editing a field name outside the known form fields is not
rejected: the update appends that name as a new binding of the form
record with the given value, leaving every existing field unchanged. -/
theorem handleChange_unknown_field_appended
    (s : AppState) (name value : String) (h : lookupField s.formData name = none) :
    (handleChange s name value).formData = s.formData ++ [(name, value)] ∧
    lookupField (handleChange s name value).formData name = some value :=
  ⟨setField_append_of_lookup_none s.formData name value h,
   setField_lookup_same s.formData name value⟩

/-- Witness for claim C10 at a concrete unknown field name: editing the
key bmi from the mount state appends a ninth binding. -/
theorem handleChange_unknown_field_appended_witness :
    lookupField initState.formData "bmi" = none ∧
    (handleChange initState "bmi" "22").formData = initialFormData ++ [("bmi", "22")] :=
  ⟨by decide,
   (handleChange_unknown_field_appended initState "bmi" "22" (by decide)).1⟩
